import Mathlib

/- Verification of the ts-outcome library.

   The repository provides three container classes: `Option<T>`
   (src/types/option.ts), `Result<T, E>` (src/types/result.ts) and the
   deferred-effect container `IO<T>` (src/types/io.ts), plus the `panic`
   helper (src/helpers.ts).

   Embedding conventions:
   - Dynamic TypeScript values are embedded as the inductive `JSValue`;
     the `instanceof Option` / `instanceof Result` checks used by
     `flatten` become pattern matches on the `opt` / `res` constructors.
   - A thrown JavaScript exception is a `JSException`; a TypeScript
     function that may throw is embedded in the exception monad
     `Except JSException`.  A `try { A } catch (e) { B }` block becomes a
     match on the embedded body of `A`.
   - The classes are named `TSOption`, `TSResult` and `Effect` here
     (`Option` and `IO` are taken by Lean; the spec itself calls the
     third container "Effect", noting it is "called IO in source").
     Method names follow the source.  `Effect.catchErr`, `fromValue` and
     `fromEffect` embed `IO.catch` and the two overload branches of
     `IO.from` (`catch` and `from` are Lean keywords). -/

/-- A thrown JavaScript value: either an `Error` object carrying a
message (`new Error(msg)`), or any other thrown value, abstracted as a
string description. -/
inductive JSException where
  | error (message : String)
  | raw (description : String)
deriving DecidableEq, Repr

mutual
/-- A dynamic TypeScript value: the null/undefined sentinels, primitives,
or one of the two container classes appearing as a payload (the nesting
that `flatten` resolves). -/
inductive JSValue where
  | vnull
  | vundef
  | num (n : Int)
  | str (s : String)
  | bool (b : Bool)
  | opt (o : TSOption)
  | res (r : TSResult)

/-- The `Option` class of src/types/option.ts: the `__kind` discriminant
(`OptionKind.Some` / `OptionKind.None`) together with the `data` payload
(present only on the `Some` variant; `None` is the shared payload-free
instance). -/
inductive TSOption where
  | some (value : JSValue)
  | none

/-- The `Result` class of src/types/result.ts: the `__kind` discriminant
(`ResultKind.Ok` / `ResultKind.Err`) together with the `data` payload,
which holds the value on `Ok` and the error on `Err`. -/
inductive TSResult where
  | ok (value : JSValue)
  | err (error : JSValue)
end

deriving instance DecidableEq for JSValue
deriving instance DecidableEq for TSOption
deriving instance DecidableEq for TSResult
deriving instance DecidableEq for Except

/-- Embeds `value instanceof Option` on a dynamic value. -/
def JSValue.isOptionValue : JSValue → Bool
  | .opt _ => true
  | _ => false

/-- Embeds `value instanceof Result` on a dynamic value. -/
def JSValue.isResultValue : JSValue → Bool
  | .res _ => true
  | _ => false

namespace Helpers

/-- src/helpers.ts `panic`: `throw new Error(`panicked at '${msg}'`)`.
In the exception monad, it returns the thrown `Error`; it never returns
normally (`never` return type in the source). -/
def panic (msg : String) : Except JSException α :=
  .error (.error ("panicked at " ++ "'" ++ msg ++ "'"))

/-- The default value of `panic`'s `msg` parameter in the source. -/
def panicDefaultMsg : String := "explicit panic"

end Helpers

namespace TSOption

/-- Embeds `Option.tryFrom(fn)`: `try { return Option.some(fn()); } catch (e)
{ return Option.none; }`.  The overall call itself never throws, hence
the `Except`-valued result is always `.ok`. -/
def tryFrom (fn : Unit → Except JSException JSValue) :
    Except JSException TSOption :=
  match fn () with
  | .ok v => .ok (.some v)
  | .error _ => .ok .none

/-- Embeds `Option.fromNullable(value)`: `value === null || value === undefined
? Option.none : Option.some(value)`. -/
def fromNullable (value : JSValue) : TSOption :=
  match value with
  | .vnull => .none
  | .vundef => .none
  | v => .some v

/-- Embeds `Option.tryFromNullable(fn)`: `try { return
Option.fromNullable(fn()); } catch (e) { return Option.none; }`. -/
def tryFromNullable (fn : Unit → Except JSException JSValue) :
    Except JSException TSOption :=
  match fn () with
  | .ok v => .ok (fromNullable v)
  | .error _ => .ok .none

/-- Embeds `Option.isSome()`: `this.__kind === OptionKind.Some`. -/
def isSome : TSOption → Bool
  | .some _ => true
  | .none => false

/-- Embeds `Option.isNone()`: `this.__kind === OptionKind.None`. -/
def isNone : TSOption → Bool
  | .some _ => false
  | .none => true

/-- Embeds `Option.okOr(error)`: `this.isSome() ? Result.ok(this.data as T) :
Result.err(error)`. -/
def okOr (o : TSOption) (error : JSValue) : TSResult :=
  match o with
  | .some v => .ok v
  | .none => .err error

/-- Embeds `Option.okOrElse(error)`: `this.isSome() ? Result.ok(this.data as T)
: Result.err(error())`. -/
def okOrElse (o : TSOption) (error : Unit → JSValue) : TSResult :=
  match o with
  | .some v => .ok v
  | .none => .err (error ())

/-- Embeds `Option.expect(message)`: `if (this.isNone()) { panic(message); }
return this.data as T;`. -/
def expect (o : TSOption) (message : String) : Except JSException JSValue :=
  match o with
  | .none => Helpers.panic message
  | .some v => .ok v

/-- Embeds `Option.unwrap()`: `this.expect("called `Option.unwrap()` on a
`None` value")`. -/
def unwrap (o : TSOption) : Except JSException JSValue :=
  o.expect "called `Option.unwrap()` on a `None` value"

/-- Embeds `Option.map(mapper)`: `this.isSome() ?
Option.some(mapper(this.data as T)) : Option.none`. -/
def map (o : TSOption) (mapper : JSValue → JSValue) : TSOption :=
  match o with
  | .some v => .some (mapper v)
  | .none => .none

/-- Embeds `Option.flatten()`: `if (this.isSome() && this.data instanceof
Option) { return (this.data as Option<T>).flatten(); } else { return
this; }`. -/
def flatten : TSOption → TSOption
  | .some (.opt o) => o.flatten
  | o => o

end TSOption

namespace TSResult

/-- Embeds `Result.tryFrom(fn, error)`: `try { return Result.ok(fn()); } catch
(e) { return Result.err(error); }`.  The overall call itself never
throws, hence the `Except`-valued result is always `.ok`. -/
def tryFrom (fn : Unit → Except JSException JSValue) (error : JSValue) :
    Except JSException TSResult :=
  match fn () with
  | .ok v => .ok (.ok v)
  | .error _ => .ok (.err error)

/-- Embeds `Result.fromNullable(value, error)`: `value === null || value ===
undefined ? Result.err(error) : Result.ok(value)`. -/
def fromNullable (value : JSValue) (error : JSValue) : TSResult :=
  match value with
  | .vnull => .err error
  | .vundef => .err error
  | v => .ok v

/-- Embeds `Result.tryFromNullable(fn, error)`: `try { return
Result.fromNullable(fn(), error); } catch (e) { return
Result.err(error); }`. -/
def tryFromNullable (fn : Unit → Except JSException JSValue)
    (error : JSValue) : Except JSException TSResult :=
  match fn () with
  | .ok v => .ok (fromNullable v error)
  | .error _ => .ok (.err error)

/-- Embeds `Result.isOk()`: `this.__kind === ResultKind.Ok`. -/
def isOk : TSResult → Bool
  | .ok _ => true
  | .err _ => false

/-- Embeds `Result.isErr()`: `this.__kind === ResultKind.Err`. -/
def isErr : TSResult → Bool
  | .ok _ => false
  | .err _ => true

/-- Embeds `Result.expect(message)`: `if (this.isErr()) { panic(message); }
return this.data as T;`. -/
def expect (r : TSResult) (message : String) : Except JSException JSValue :=
  match r with
  | .err _ => Helpers.panic message
  | .ok v => .ok v

/-- Embeds `Result.unwrap()`: `this.expect("called `Result.unwrap()` on an
`Err` value")`. -/
def unwrap (r : TSResult) : Except JSException JSValue :=
  r.expect "called `Result.unwrap()` on an `Err` value"

/-- Embeds `Result.expectErr(message)`: `if (this.isOk()) { panic(message); }
return this.data as E;`. -/
def expectErr (r : TSResult) (message : String) :
    Except JSException JSValue :=
  match r with
  | .ok _ => Helpers.panic message
  | .err e => .ok e

/-- Embeds `Result.unwrapErr()`: `this.expectErr("called `Result.unwrapErr()`
on an `Ok` value")`. -/
def unwrapErr (r : TSResult) : Except JSException JSValue :=
  r.expectErr "called `Result.unwrapErr()` on an `Ok` value"

/-- Embeds `Result.map(mapper)`: `this.isOk() ?
Result.ok(mapper(this.data as T)) : Result.err(this.data as E)`. -/
def map (r : TSResult) (mapper : JSValue → JSValue) : TSResult :=
  match r with
  | .ok v => .ok (mapper v)
  | .err e => .err e

/-- Embeds `Result.flatten()`: `if (this.data instanceof Result) { return
(this.data as Result<T, E>).flatten(); } else { return this; }`.  Note:
unlike `Option.flatten`, there is no `isOk()` guard — `this.data` is the
payload of either variant, so an `Err` holding a `Result` also
recurses. -/
def flatten : TSResult → TSResult
  | .ok (.res r) => r.flatten
  | .err (.res r) => r.flatten
  | r => r

end TSResult

/-- The deferred-effect container of src/types/io.ts (class `IO<T>`;
the spec calls it Effect).  It holds exactly one producer
`effect: () => Promise<T>`; a promise is embedded denotationally by its
settlement: it either resolves with a value or rejects with a thrown
value. -/
structure Effect (α : Type) where
  effect : Unit → Except JSException α

namespace Effect

/-- The constant-value branch of `IO.from(value)`: `new IO(() =>
Promise.resolve(value))`. -/
def fromValue (value : α) : Effect α :=
  ⟨fun _ => .ok value⟩

/-- The `value instanceof IO` branch of `IO.from(value)`: `new
IO(value.effect)` — copies the producer rather than double-wrapping. -/
def fromEffect (e : Effect α) : Effect α :=
  ⟨e.effect⟩

/-- Embeds `IO.fromPromise(promise)`: `new IO(promise)`. -/
def fromPromise (promise : Unit → Except JSException α) : Effect α :=
  ⟨promise⟩

/-- Embeds `IO.chain(mapper)`: `new IO(() => this.effect().then((result) =>
mapper(result).effect()))` — `then` on a resolved promise feeds the
resolved value to the callback and adopts the promise the callback
returns; on a rejected promise it propagates the rejection and never
invokes the callback. -/
def chain (e : Effect α) (mapper : α → Effect β) : Effect β :=
  ⟨fun _ =>
    match e.effect () with
    | .ok result => (mapper result).effect ()
    | .error ex => .error ex⟩

/-- Embeds `IO.catch(handler)` (named `catchErr` here because `catch` is a Lean
keyword): `new IO(() => this.effect().catch((error) =>
handler(error).effect()))` — `catch` on a rejected promise feeds the
rejection reason to the handler and adopts the promise the handler
returns; on a resolved promise it passes the value through and never
invokes the handler. -/
def catchErr (e : Effect α) (handler : JSException → Effect α) : Effect α :=
  ⟨fun _ =>
    match e.effect () with
    | .ok v => .ok v
    | .error ex => (handler ex).effect ()⟩

/-- Embeds `IO.run()`: `this.effect()` — invokes the stored producer anew and
returns its future. -/
def run (e : Effect α) : Except JSException α :=
  e.effect ()

end Effect

/-- Models the JavaScript call `() => JSON.parse("42")`: returns the
number 42 without throwing. -/
def jsonParse42 : Unit → Except JSException JSValue :=
  fun _ => .ok (.num 42)

/-- Models the JavaScript call `() => JSON.parse("invalid")`: throws a
`SyntaxError`. -/
def jsonParseInvalid : Unit → Except JSException JSValue :=
  fun _ => .error (.raw "SyntaxError: Unexpected token i in JSON")

mutual
/-- Container-nesting depth of a dynamic value: the number of container
layers stacked directly as payloads.  Measures the recursion of
`flatten`. -/
def JSValue.nestDepth : JSValue → Nat
  | .opt o => o.nestDepth + 1
  | .res r => r.nestDepth + 1
  | _ => 0

/-- Container-nesting depth of an `Option`'s payload. -/
def TSOption.nestDepth : TSOption → Nat
  | .some v => v.nestDepth
  | .none => 0

/-- Container-nesting depth of a `Result`'s payload. -/
def TSResult.nestDepth : TSResult → Nat
  | .ok v => v.nestDepth
  | .err v => v.nestDepth
end

/-- Embeds `Option.flatten` with an explicit fuel bound on the recursion:
`Option.none` is returned when the fuel runs out before the recursion
ends.  Used to state that the recursion of `flatten` terminates within
the nesting depth of the container. -/
def TSOption.flattenFuel : Nat → TSOption → Option TSOption
  | fuel, TSOption.some (JSValue.opt o) =>
    match fuel with
    | 0 => Option.none
    | fuel' + 1 => TSOption.flattenFuel fuel' o
  | _, o => Option.some o

/-- Embeds `Result.flatten` with an explicit fuel bound on the recursion. -/
def TSResult.flattenFuel : Nat → TSResult → Option TSResult
  | fuel, TSResult.ok (JSValue.res r) =>
    match fuel with
    | 0 => Option.none
    | fuel' + 1 => TSResult.flattenFuel fuel' r
  | fuel, TSResult.err (JSValue.res r) =>
    match fuel with
    | 0 => Option.none
    | fuel' + 1 => TSResult.flattenFuel fuel' r
  | _, r => Option.some r

/-- Helper: the fuel-bounded `Option.flatten` succeeds whenever the fuel
is at least the container-nesting depth, and computes `flatten`. -/
theorem optionFlattenFuel_eq (fuel : Nat) :
    ∀ o : TSOption, o.nestDepth ≤ fuel →
      TSOption.flattenFuel fuel o = Option.some o.flatten := by
  induction fuel with
  | zero =>
    intro o h
    match o with
    | .none => rfl
    | .some .vnull => rfl
    | .some .vundef => rfl
    | .some (.num n) => rfl
    | .some (.str s) => rfl
    | .some (.bool b) => rfl
    | .some (.res r) => rfl
    | .some (.opt o') =>
      exfalso
      simp [TSOption.nestDepth, JSValue.nestDepth] at h
  | succ fuel ih =>
    intro o h
    match o with
    | .none => rfl
    | .some .vnull => rfl
    | .some .vundef => rfl
    | .some (.num n) => rfl
    | .some (.str s) => rfl
    | .some (.bool b) => rfl
    | .some (.res r) => rfl
    | .some (.opt o') =>
      have h' : o'.nestDepth ≤ fuel := by
        simp [TSOption.nestDepth, JSValue.nestDepth] at h
        omega
      simpa [TSOption.flattenFuel, TSOption.flatten] using ih o' h'

/-- Helper: the fuel-bounded `Result.flatten` succeeds whenever the fuel
is at least the container-nesting depth, and computes `flatten`. -/
theorem resultFlattenFuel_eq (fuel : Nat) :
    ∀ r : TSResult, r.nestDepth ≤ fuel →
      TSResult.flattenFuel fuel r = Option.some r.flatten := by
  induction fuel with
  | zero =>
    intro r h
    match r with
    | .ok .vnull => rfl
    | .ok .vundef => rfl
    | .ok (.num n) => rfl
    | .ok (.str s) => rfl
    | .ok (.bool b) => rfl
    | .ok (.opt o) => rfl
    | .err .vnull => rfl
    | .err .vundef => rfl
    | .err (.num n) => rfl
    | .err (.str s) => rfl
    | .err (.bool b) => rfl
    | .err (.opt o) => rfl
    | .ok (.res r') =>
      exfalso
      simp [TSResult.nestDepth, JSValue.nestDepth] at h
    | .err (.res r') =>
      exfalso
      simp [TSResult.nestDepth, JSValue.nestDepth] at h
  | succ fuel ih =>
    intro r h
    match r with
    | .ok .vnull => rfl
    | .ok .vundef => rfl
    | .ok (.num n) => rfl
    | .ok (.str s) => rfl
    | .ok (.bool b) => rfl
    | .ok (.opt o) => rfl
    | .err .vnull => rfl
    | .err .vundef => rfl
    | .err (.num n) => rfl
    | .err (.str s) => rfl
    | .err (.bool b) => rfl
    | .err (.opt o) => rfl
    | .ok (.res r') =>
      have h' : r'.nestDepth ≤ fuel := by
        simp [TSResult.nestDepth, JSValue.nestDepth] at h
        omega
      simpa [TSResult.flattenFuel, TSResult.flatten] using ih r' h'
    | .err (.res r') =>
      have h' : r'.nestDepth ≤ fuel := by
        simp [TSResult.nestDepth, JSValue.nestDepth] at h
        omega
      simpa [TSResult.flattenFuel, TSResult.flatten] using ih r' h'

/-- C1 counterexample: the function `() => Option.none.unwrap()` panics
(it throws the panic `Error`), yet `Option.tryFrom`,
`Option.tryFromNullable`, `Result.tryFrom` and `Result.tryFromNullable`
applied to it return normally with `None` / `Err(e)` — the panic does
not escape, contrary to the claim. -/
theorem c1_counterexample :
    TSOption.unwrap TSOption.none =
      Except.error (JSException.error
        "panicked at 'called `Option.unwrap()` on a `None` value'") ∧
    TSOption.tryFrom (fun _ => TSOption.unwrap TSOption.none) =
      Except.ok TSOption.none ∧
    TSOption.tryFromNullable (fun _ => TSOption.unwrap TSOption.none) =
      Except.ok TSOption.none ∧
    TSResult.tryFrom (fun _ => TSOption.unwrap TSOption.none)
        (JSValue.str "e") =
      Except.ok (TSResult.err (JSValue.str "e")) ∧
    TSResult.tryFromNullable (fun _ => TSOption.unwrap TSOption.none)
        (JSValue.str "e") =
      Except.ok (TSResult.err (JSValue.str "e")) :=
  ⟨rfl, rfl, rfl, rfl, rfl⟩

/-- C1 (amended): a panic raised inside `fn` is an ordinary thrown
`Error`, and the catch-all `try/catch` of the `tryFrom` family catches
it like any other exception: whenever `fn` throws — in particular when
it panics — `Option.tryFrom(fn)` and `Option.tryFromNullable(fn)` return
`None`, and `Result.tryFrom(fn, e)` and `Result.tryFromNullable(fn, e)`
return `Err(e)`; no exception escapes these four calls. -/
theorem c1_tryFrom_catches_panics
    (fn : Unit → Except JSException JSValue) (ex : JSException)
    (e : JSValue) (h : fn () = Except.error ex) :
    TSOption.tryFrom fn = Except.ok TSOption.none ∧
    TSOption.tryFromNullable fn = Except.ok TSOption.none ∧
    TSResult.tryFrom fn e = Except.ok (TSResult.err e) ∧
    TSResult.tryFromNullable fn e = Except.ok (TSResult.err e) := by
  refine ⟨?_, ?_, ?_, ?_⟩ <;>
    simp [TSOption.tryFrom, TSOption.tryFromNullable, TSResult.tryFrom,
      TSResult.tryFromNullable, h]

/-- C1 witness: the amended theorem applied to the concrete panicking
function `() => Option.none.unwrap()`. -/
theorem c1_witness :
    TSOption.tryFrom (fun _ => TSOption.unwrap TSOption.none) =
      Except.ok TSOption.none ∧
    TSResult.tryFrom (fun _ => TSOption.unwrap TSOption.none)
        (JSValue.str "e") =
      Except.ok (TSResult.err (JSValue.str "e")) :=
  ⟨(c1_tryFrom_catches_panics (fun _ => TSOption.unwrap TSOption.none)
      (JSException.error
        "panicked at 'called `Option.unwrap()` on a `None` value'")
      (JSValue.str "e") rfl).1,
   (c1_tryFrom_catches_panics (fun _ => TSOption.unwrap TSOption.none)
      (JSException.error
        "panicked at 'called `Option.unwrap()` on a `None` value'")
      (JSValue.str "e") rfl).2.2.1⟩

/-- C2 counterexample: `Result.err` holding a nested `Result` is not
returned unchanged by `flatten()` — `Err(Ok(5)).flatten()` evaluates to
`Ok(5)`, because `Result.flatten` tests only `this.data instanceof
Result`, without the `isOk()` guard that `Option.flatten` has. -/
theorem c2_counterexample :
    (TSResult.err (JSValue.res (TSResult.ok (JSValue.num 5)))).flatten =
      TSResult.ok (JSValue.num 5) ∧
    (TSResult.err (JSValue.res (TSResult.ok (JSValue.num 5)))).flatten ≠
      TSResult.err (JSValue.res (TSResult.ok (JSValue.num 5))) :=
  ⟨rfl, by decide⟩

/-- C2 (amended): `Result.flatten()` recurses whenever the held payload
is itself a `Result`, regardless of variant — both `Ok(r)` and `Err(r)`
with a `Result` payload `r` flatten to `r.flatten()` — whereas
`Option.flatten()` recurses only through the positive variant `Some`;
a `Result` whose payload is not a `Result` is returned unchanged, as are
`None` and a `Some` whose payload is not an `Option`. -/
theorem c2_flatten_recursion (r : TSResult) (o : TSOption) (v : JSValue) :
    (TSResult.ok (JSValue.res r)).flatten = r.flatten ∧
    (TSResult.err (JSValue.res r)).flatten = r.flatten ∧
    (v.isResultValue = false →
      (TSResult.ok v).flatten = TSResult.ok v ∧
      (TSResult.err v).flatten = TSResult.err v) ∧
    (TSOption.some (JSValue.opt o)).flatten = o.flatten ∧
    TSOption.none.flatten = TSOption.none ∧
    (v.isOptionValue = false →
      (TSOption.some v).flatten = TSOption.some v) := by
  refine ⟨rfl, rfl, ?_, rfl, rfl, ?_⟩
  · intro hv
    cases v with
    | res r' => exact absurd hv (by simp [JSValue.isResultValue])
    | vnull => exact ⟨rfl, rfl⟩
    | vundef => exact ⟨rfl, rfl⟩
    | num n => exact ⟨rfl, rfl⟩
    | str s => exact ⟨rfl, rfl⟩
    | bool b => exact ⟨rfl, rfl⟩
    | opt o' => exact ⟨rfl, rfl⟩
  · intro hv
    cases v with
    | opt o' => exact absurd hv (by simp [JSValue.isOptionValue])
    | vnull => rfl
    | vundef => rfl
    | num n => rfl
    | str s => rfl
    | bool b => rfl
    | res r' => rfl

/-- C2 witness: the amended theorem applied at concrete containers with
a non-container payload. -/
theorem c2_witness :
    (TSResult.ok (JSValue.num 5)).flatten = TSResult.ok (JSValue.num 5) ∧
    (TSResult.err (JSValue.num 5)).flatten = TSResult.err (JSValue.num 5) ∧
    (TSOption.some (JSValue.num 5)).flatten =
      TSOption.some (JSValue.num 5) :=
  ⟨((c2_flatten_recursion (TSResult.ok (JSValue.num 1)) TSOption.none
      (JSValue.num 5)).2.2.1 rfl).1,
   ((c2_flatten_recursion (TSResult.ok (JSValue.num 1)) TSOption.none
      (JSValue.num 5)).2.2.1 rfl).2,
   (c2_flatten_recursion (TSResult.ok (JSValue.num 1)) TSOption.none
      (JSValue.num 5)).2.2.2.2.2 rfl⟩

/-- C3 counterexample: the actual default panic results differ from the
results the claim specifies — the messages in the source wrap the method
name and the variant name in backticks (as the repository's own tests
assert), while the claim's strings carry no backticks. -/
theorem c3_counterexample :
    TSOption.unwrap TSOption.none ≠
      Except.error (JSException.error
        "panicked at 'called Option.unwrap() on a None value'") ∧
    (TSResult.err (JSValue.num 0)).unwrap ≠
      Except.error (JSException.error
        "panicked at 'called Result.unwrap() on an Err value'") ∧
    (TSResult.ok (JSValue.num 0)).unwrapErr ≠
      Except.error (JSException.error
        "panicked at 'called Result.unwrapErr() on an Ok value'") := by
  refine ⟨?_, ?_, ?_⟩ <;> decide

/-- C3 (amended): the default panic messages of the unwrap family are
exactly the source strings with backticks — `unwrap()` on a `None`
Option panics with message "called `Option.unwrap()` on a `None`
value", `unwrap()` on an `Err` Result with "called `Result.unwrap()` on
an `Err` value", and `unwrapErr()` on an `Ok` Result with "called
`Result.unwrapErr()` on an `Ok` value", each delivered through the
panic collaborator as the thrown Error "panicked at '<message>'". -/
theorem c3_default_panic_messages (v : JSValue) :
    TSOption.unwrap TSOption.none =
      Except.error (JSException.error
        "panicked at 'called `Option.unwrap()` on a `None` value'") ∧
    (TSResult.err v).unwrap =
      Except.error (JSException.error
        "panicked at 'called `Result.unwrap()` on an `Err` value'") ∧
    (TSResult.ok v).unwrapErr =
      Except.error (JSException.error
        "panicked at 'called `Result.unwrapErr()` on an `Ok` value'") :=
  ⟨rfl, rfl, rfl⟩

/-- C5: `Result.tryFrom(fn, e)` returns `Ok(fn())` when `fn` returns
normally and `Err(e)` when `fn` throws; `Result.tryFromNullable(fn, e)`
additionally returns `Err(e)` when `fn` returns null or undefined and
`Ok` of the result otherwise; composing with `unwrap`/`unwrapErr` on
the modelled `JSON.parse` examples gives 42 and `e` respectively. -/
theorem c5_tryFrom_behavior
    (fn : Unit → Except JSException JSValue) (e : JSValue) :
    (∀ v, fn () = Except.ok v →
      TSResult.tryFrom fn e = Except.ok (TSResult.ok v)) ∧
    (∀ ex, fn () = Except.error ex →
      TSResult.tryFrom fn e = Except.ok (TSResult.err e)) ∧
    (fn () = Except.ok JSValue.vnull →
      TSResult.tryFromNullable fn e = Except.ok (TSResult.err e)) ∧
    (fn () = Except.ok JSValue.vundef →
      TSResult.tryFromNullable fn e = Except.ok (TSResult.err e)) ∧
    (∀ v, fn () = Except.ok v → v ≠ JSValue.vnull → v ≠ JSValue.vundef →
      TSResult.tryFromNullable fn e = Except.ok (TSResult.ok v)) ∧
    (∀ ex, fn () = Except.error ex →
      TSResult.tryFromNullable fn e = Except.ok (TSResult.err e)) ∧
    (TSResult.tryFrom jsonParse42 e >>= TSResult.unwrap) =
      Except.ok (JSValue.num 42) ∧
    (TSResult.tryFrom jsonParseInvalid e >>= TSResult.unwrapErr) =
      Except.ok e := by
  refine ⟨?_, ?_, ?_, ?_, ?_, ?_, rfl, ?_⟩
  · intro v hv
    simp [TSResult.tryFrom, hv]
  · intro ex hex
    simp [TSResult.tryFrom, hex]
  · intro hv
    simp [TSResult.tryFromNullable, hv, TSResult.fromNullable]
  · intro hv
    simp [TSResult.tryFromNullable, hv, TSResult.fromNullable]
  · intro v hv h1 h2
    have : TSResult.fromNullable v e = TSResult.ok v := by
      cases v with
      | vnull => exact absurd rfl h1
      | vundef => exact absurd rfl h2
      | num n => rfl
      | str s => rfl
      | bool b => rfl
      | opt o => rfl
      | res r => rfl
    simp [TSResult.tryFromNullable, hv, this]
  · intro ex hex
    simp [TSResult.tryFromNullable, hex]
  · simp [TSResult.tryFrom, jsonParseInvalid, TSResult.unwrapErr,
      TSResult.expectErr]
    rfl

/-- C5 witness: the theorem applied to the modelled `JSON.parse`
functions at a concrete error value. -/
theorem c5_witness :
    TSResult.tryFrom jsonParse42 (JSValue.str "e") =
      Except.ok (TSResult.ok (JSValue.num 42)) ∧
    TSResult.tryFrom jsonParseInvalid (JSValue.str "e") =
      Except.ok (TSResult.err (JSValue.str "e")) ∧
    TSResult.tryFromNullable (fun _ => Except.ok JSValue.vnull)
        (JSValue.str "e") =
      Except.ok (TSResult.err (JSValue.str "e")) ∧
    TSResult.tryFromNullable jsonParse42 (JSValue.str "e") =
      Except.ok (TSResult.ok (JSValue.num 42)) :=
  ⟨(c5_tryFrom_behavior jsonParse42 (JSValue.str "e")).1
      (JSValue.num 42) rfl,
   (c5_tryFrom_behavior jsonParseInvalid (JSValue.str "e")).2.1
      (JSException.raw "SyntaxError: Unexpected token i in JSON") rfl,
   (c5_tryFrom_behavior (fun _ => Except.ok JSValue.vnull)
      (JSValue.str "e")).2.2.1 rfl,
   (c5_tryFrom_behavior jsonParse42 (JSValue.str "e")).2.2.2.2.1
      (JSValue.num 42) rfl (by decide) (by decide)⟩

/-- C6: conversion from Optional to Outcome is exact — `some(v).okOr(e)`
is `Ok(v)`, `none.okOr(e)` is `Err(e)`, `okOrElse` produces the same
results, with the error function entering the result only on the `None`
path (on `Some` the result does not depend on it at all). -/
theorem c6_okOr_conversion (v e : JSValue) (f g : Unit → JSValue) :
    (TSOption.some v).okOr e = TSResult.ok v ∧
    TSOption.none.okOr e = TSResult.err e ∧
    (TSOption.some v).okOrElse f = TSResult.ok v ∧
    TSOption.none.okOrElse f = TSResult.err (f ()) ∧
    (TSOption.some v).okOrElse f = (TSOption.some v).okOrElse g :=
  ⟨rfl, rfl, rfl, rfl, rfl⟩

/-- C7: `Option.map` satisfies the functor laws — mapping the identity
function is the identity on both variants, and mapping `f` then `g`
equals mapping the composition. -/
theorem c7_map_functor_laws (o : TSOption) (f g : JSValue → JSValue) :
    o.map (fun x => x) = o ∧
    (o.map f).map g = o.map (fun x => g (f x)) := by
  cases o <;> exact ⟨rfl, rfl⟩

/-- C4: effect chaining is sequential and short-circuits on rejection —
the concrete pipeline `IO.from(4).chain(+2).chain(*3).chain(/2).run()`
resolves to 9; when a stage resolves, the chained execution continues
with the mapper applied to the resolved value; when a stage rejects, the
overall execution rejects with that first rejection, independently of
the mapper (the mapper is never consulted); and a rejection of the
second stage rejects the overall execution. -/
theorem c4_chain_sequencing :
    ((((Effect.fromValue (4 : Int)).chain
          (fun v => Effect.fromValue (v + 2))).chain
        (fun v => Effect.fromValue (v * 3))).chain
      (fun v => Effect.fromValue (v / 2))).run = Except.ok 9 ∧
    (∀ (α β : Type) (e : Effect α) (v : α) (f : α → Effect β),
      e.run = Except.ok v → (e.chain f).run = (f v).run) ∧
    (∀ (α β : Type) (e : Effect α) (ex : JSException)
        (f g : α → Effect β),
      e.run = Except.error ex →
        (e.chain f).run = Except.error ex ∧
        (e.chain f).run = (e.chain g).run) ∧
    (∀ (α β : Type) (e : Effect α) (v : α) (f : α → Effect β)
        (ex : JSException),
      e.run = Except.ok v → (f v).run = Except.error ex →
        (e.chain f).run = Except.error ex) := by
  refine ⟨rfl, ?_, ?_, ?_⟩
  · intro α β e v f h
    simp only [Effect.run, Effect.chain] at h ⊢
    rw [h]
  · intro α β e ex f g h
    simp only [Effect.run, Effect.chain] at h ⊢
    rw [h]
    exact ⟨rfl, rfl⟩
  · intro α β e v f ex h hf
    simp only [Effect.run, Effect.chain] at h hf ⊢
    rw [h]
    exact hf

/-- C4 witness: the theorem applied to the concrete pipeline, a concrete
resolving stage and a concrete rejecting first stage. -/
theorem c4_witness :
    ((((Effect.fromValue (4 : Int)).chain
          (fun v => Effect.fromValue (v + 2))).chain
        (fun v => Effect.fromValue (v * 3))).chain
      (fun v => Effect.fromValue (v / 2))).run = Except.ok 9 ∧
    ((Effect.fromValue (1 : Int)).chain
        (fun v => Effect.fromValue (v + 1))).run = Except.ok 2 ∧
    ((Effect.fromPromise
        (fun _ => (Except.error (JSException.error "boom") :
          Except JSException Int))).chain
      (fun v => Effect.fromValue (v + 1))).run =
        Except.error (JSException.error "boom") :=
  ⟨c4_chain_sequencing.1,
   c4_chain_sequencing.2.1 Int Int (Effect.fromValue 1) 1
      (fun v => Effect.fromValue (v + 1)) rfl,
   (c4_chain_sequencing.2.2.1 Int Int
      (Effect.fromPromise
        (fun _ => (Except.error (JSException.error "boom") :
          Except JSException Int)))
      (JSException.error "boom")
      (fun v => Effect.fromValue (v + 1))
      (fun v => Effect.fromValue (v + 1)) rfl).1⟩

/-- C8: effect error recovery via catch — a producer that always rejects
wrapped in `catch(() => IO.from(5))` resolves to 5; in general, when the
wrapped effect rejects the recovery container produced by the handler is
run instead, and when it resolves normally the resolved value passes
through with the handler never consulted (the result is independent of
the handler). -/
theorem c8_catch_recovery :
    (∀ ex : JSException,
      ((Effect.fromPromise
          (fun _ => (Except.error ex : Except JSException Int))).catchErr
        (fun _ => Effect.fromValue 5)).run = Except.ok 5) ∧
    (∀ (α : Type) (e : Effect α) (ex : JSException)
        (h : JSException → Effect α),
      e.run = Except.error ex → (e.catchErr h).run = (h ex).run) ∧
    (∀ (α : Type) (e : Effect α) (v : α) (h : JSException → Effect α),
      e.run = Except.ok v → (e.catchErr h).run = Except.ok v) ∧
    (∀ (α : Type) (e : Effect α) (v : α)
        (h1 h2 : JSException → Effect α),
      e.run = Except.ok v →
        (e.catchErr h1).run = (e.catchErr h2).run) := by
  refine ⟨fun ex => rfl, ?_, ?_, ?_⟩
  · intro α e ex h hrej
    simp only [Effect.run, Effect.catchErr] at hrej ⊢
    rw [hrej]
  · intro α e v h hres
    simp only [Effect.run, Effect.catchErr] at hres ⊢
    rw [hres]
  · intro α e v h1 h2 hres
    simp only [Effect.run, Effect.catchErr] at hres ⊢
    rw [hres]

/-- C8 witness: the theorem applied to a concrete always-rejecting
producer and a concrete resolving effect. -/
theorem c8_witness :
    ((Effect.fromPromise
        (fun _ => (Except.error (JSException.error "Oops!") :
          Except JSException Int))).catchErr
      (fun _ => Effect.fromValue 5)).run = Except.ok 5 ∧
    ((Effect.fromValue (7 : Int)).catchErr
        (fun _ => Effect.fromValue 5)).run = Except.ok 7 :=
  ⟨c8_catch_recovery.1 (JSException.error "Oops!"),
   c8_catch_recovery.2.2.1 Int (Effect.fromValue 7) 7
      (fun _ => Effect.fromValue 5) rfl⟩

/-- C9: `Option.some` never inspects its argument — for every value,
including the null and undefined sentinels, `some(v)` is a `Some`
variant whose `unwrap()` returns `v` and which is distinct from
`Option.none`; only `fromNullable` / `tryFromNullable` map the
null/absence sentinels to `None`, and `fromNullable` wraps every other
value in `Some`. -/
theorem c9_some_never_inspects (v : JSValue) :
    (TSOption.some v).isSome = true ∧
    (TSOption.some v).unwrap = Except.ok v ∧
    TSOption.some v ≠ TSOption.none ∧
    TSOption.fromNullable JSValue.vnull = TSOption.none ∧
    TSOption.fromNullable JSValue.vundef = TSOption.none ∧
    TSOption.tryFromNullable (fun _ => Except.ok JSValue.vnull) =
      Except.ok TSOption.none ∧
    TSOption.tryFromNullable (fun _ => Except.ok JSValue.vundef) =
      Except.ok TSOption.none ∧
    (v ≠ JSValue.vnull → v ≠ JSValue.vundef →
      TSOption.fromNullable v = TSOption.some v) := by
  refine ⟨rfl, rfl, fun h => TSOption.noConfusion h, rfl, rfl, rfl, rfl,
    ?_⟩
  intro h1 h2
  cases v with
  | vnull => exact absurd rfl h1
  | vundef => exact absurd rfl h2
  | num n => rfl
  | str s => rfl
  | bool b => rfl
  | opt o => rfl
  | res r => rfl

/-- C9 witness: the theorem applied at the null sentinel (for the
`some`-is-opaque conjuncts) and at a non-sentinel value (for the
`fromNullable` conjunct with its hypotheses discharged). -/
theorem c9_witness :
    (TSOption.some JSValue.vnull).isSome = true ∧
    (TSOption.some JSValue.vnull).unwrap = Except.ok JSValue.vnull ∧
    TSOption.some JSValue.vnull ≠ TSOption.none ∧
    TSOption.fromNullable (JSValue.num 1) =
      TSOption.some (JSValue.num 1) :=
  ⟨(c9_some_never_inspects JSValue.vnull).1,
   (c9_some_never_inspects JSValue.vnull).2.1,
   (c9_some_never_inspects JSValue.vnull).2.2.1,
   (c9_some_never_inspects (JSValue.num 1)).2.2.2.2.2.2.2
      (by decide) (by decide)⟩

/-- C10: `Option.flatten` and `Result.flatten` terminate for every
finitely nested container — the fuel-bounded version of each recursion
already succeeds with fuel equal to the container-nesting depth of the
input, returning exactly the total function's value, so each recursive
call descends to a strictly smaller nesting depth. -/
theorem c10_flatten_terminates (o : TSOption) (r : TSResult) :
    TSOption.flattenFuel o.nestDepth o = Option.some o.flatten ∧
    TSResult.flattenFuel r.nestDepth r = Option.some r.flatten :=
  ⟨optionFlattenFuel_eq o.nestDepth o le_rfl,
   resultFlattenFuel_eq r.nestDepth r le_rfl⟩
